import Mathlib

/-!
# AFPSCharacter: sprint toggle, crouch requests, firing and the crouch camera

A shallow embedding of `Source/FPSGame/Private/FPSCharacter.cpp` and
`Source/FPSGame/Public/FPSCharacter.h`.

Modelling conventions
* A `float` that the code compares (the velocity magnitude, the movement-axis
  inputs) is an `F32`: a finite value, an infinity or NaN, compared as IEEE 754
  compares.  A `float` that is only stored, passed on or combined arithmetically
  is an exact rational (`ℚ`).
* An `int` is an `Int`.  The implicit `int → float` conversion of the source is
  `intToFloat`: round to nearest, ties to even, at the 24 significant bits of
  a `float`.
* A pointer is an `Option` of a handle (`none` is the null pointer).
* The host engine is not part of the sources.  What the actor reads from it
  through getters is the record `Engine`; what the actor asks of it through
  calls that return nothing is appended, in program order, to the call log
  `calls`.  Three engine-side values are written by the actor and read back
  later, and are therefore fields of the actor state itself:
  `MaxWalkSpeed` (of the movement component), the relative location of the
  first-person camera and the relative location of the third-person mesh.
-/

/-- A `float` as comparisons see it: a finite value, `+inf`, `-inf` or NaN.  Both zeros are
`finite 0`; every `float` is one of these values. -/
inductive F32
  | finite (q : ℚ)
  | posInf
  | negInf
  | nan
deriving DecidableEq

/-- Number of halvings that bring `a` below `2 ^ 24`; `fuel` bounds the recursion. -/
def excessBits : Nat → Nat → Nat
  | 0, _ => 0
  | fuel + 1, a => if a < 2 ^ 24 then 0 else excessBits fuel (a / 2) + 1

/-- Round `a` to a multiple of `2 ^ e`: to the nearest one, and of two equally near ones to
the one whose quotient by `2 ^ e` is even. -/
def roundNearestEven (a e : Nat) : Nat :=
  let q := 2 ^ e
  let m := a / q
  let r := a % q
  if 2 * r < q then m * q
  else if q < 2 * r then (m + 1) * q
  else if m % 2 = 0 then m * q else (m + 1) * q

/-- The `int → float` conversion, as the integer the resulting `float` holds: the magnitude
is rounded to 24 significant bits, to nearest and ties to even.  Every `int` of magnitude
below `2 ^ 24` converts exactly. -/
def intToFloat (n : Int) : Int :=
  let a := n.natAbs
  let e := excessBits a a
  if 0 ≤ n then (roundNearestEven a e : Int) else -(roundNearestEven a e : Int)

namespace F32

instance (n : Nat) : OfNat F32 n := ⟨finite n⟩

/-- IEEE `operator<=`: false when either side is NaN. -/
def le : F32 → F32 → Bool
  | finite a, finite b => decide (a ≤ b)
  | finite _, posInf => true
  | negInf, finite _ => true
  | negInf, negInf => true
  | negInf, posInf => true
  | posInf, posInf => true
  | _, _ => false

/-- IEEE `operator<`: false when either side is NaN. -/
def lt : F32 → F32 → Bool
  | finite a, finite b => decide (a < b)
  | finite _, posInf => true
  | negInf, finite _ => true
  | negInf, posInf => true
  | _, _ => false

/-- IEEE `operator>`. -/
def gt (a b : F32) : Bool := lt b a

/-- IEEE `operator!=`: true when either side is NaN. -/
def ne : F32 → F32 → Bool
  | nan, _ => true
  | _, nan => true
  | a, b => decide (a ≠ b)

/-- An `int` operand converted to `float`. -/
def ofInt (n : Int) : F32 := finite (intToFloat n)

end F32

/-- Engine vector type `FVector`, three `float` components. -/
structure FVector where
  X : ℚ
  Y : ℚ
  Z : ℚ
deriving DecidableEq

/-- Engine rotation type `FRotator`. -/
structure FRotator where
  Pitch : ℚ
  Yaw : ℚ
  Roll : ℚ
deriving DecidableEq

namespace FVector

/-- Component-wise `FVector::operator+`. -/
def add (a b : FVector) : FVector := ⟨a.X + b.X, a.Y + b.Y, a.Z + b.Z⟩

/-- Component-wise `FVector::operator-`. -/
def sub (a b : FVector) : FVector := ⟨a.X - b.X, a.Y - b.Y, a.Z - b.Z⟩

/-- Scaling `operator*(float, FVector)`. -/
def scale (k : ℚ) (a : FVector) : FVector := ⟨k * a.X, k * a.Y, k * a.Z⟩

instance : Add FVector := ⟨add⟩
instance : Sub FVector := ⟨sub⟩
instance : HMul ℚ FVector FVector := ⟨scale⟩

end FVector

/-- Modelled from the spec: `FMath::Lerp` is an engine template that is not among the
sources; the spec calls the camera motion a linear interpolation, and the engine
template is `A + Alpha * (B - A)`. -/
def FMath.Lerp (A B : FVector) (Alpha : ℚ) : FVector := A + Alpha * (B - A)

/-- Engine enumeration `ESpawnActorCollisionHandlingMethod`. -/
inductive ESpawnActorCollisionHandlingMethod
  | Undefined
  | AlwaysSpawn
  | AdjustIfPossibleButAlwaysSpawn
  | AdjustIfPossibleButDontSpawnIfColliding
  | DontSpawnIfColliding
deriving DecidableEq

/-- One call into the engine, with the arguments the actor passes. -/
inductive Call
  /-- Call `AddMovementInput(WorldDirection, ScaleValue)`. -/
  | AddMovementInput (WorldDirection : FVector) (ScaleValue : F32)
  /-- Call `AddControllerYawInput(rate)`. -/
  | AddControllerYawInput (rate : ℚ)
  /-- Call `AddControllerPitchInput(rate)`. -/
  | AddControllerPitchInput (rate : ℚ)
  /-- Call `ACharacter::Crouch()`. -/
  | Crouch
  /-- Call `ACharacter::UnCrouch()`. -/
  | UnCrouch
  /-- Call `Super::Jump()`. -/
  | SuperJump
  /-- Call `Super::Tick(DeltaTime)`. -/
  | SuperTick (DeltaTime : ℚ)
  /-- Call `Super::BeginPlay()`. -/
  | SuperBeginPlay
  /-- Call `Mesh1P->SetHiddenInGame(NewHidden, bPropagateToChildren)`. -/
  | Mesh1PSetHiddenInGame (NewHidden bPropagateToChildren : Bool)
  /-- Call `AssertNotNull(ptr, ..., msg)`; `isSet` tells whether `ptr` is non-null. -/
  | AssertNotNull (isSet : Bool) (msg : String)
  /-- Call `CrouchingTimeline->AddInterpFloat(curve, callback, trackName)`. -/
  | AddInterpFloat (curve : Option Nat) (callback : String) (trackName : String)
  /-- Call `GetWorld()->SpawnActor<AFPSProjectile>(cls, loc, rot, params)`. -/
  | SpawnActor (cls : Nat) (loc : FVector) (rot : FRotator)
      (SpawnCollisionHandlingOverride : ESpawnActorCollisionHandlingMethod)
  /-- Call `UGameplayStatics::PlaySoundAtLocation(this, sound, loc)`. -/
  | PlaySoundAtLocation (sound : Nat) (loc : FVector)
  /-- Call `AnimInstance->PlaySlotAnimationAsDynamicMontage(anim, slot, blendIn)`. -/
  | PlaySlotAnimationAsDynamicMontage (animInstance : Nat) (anim : Nat) (slot : String)
      (BlendInTime : ℚ)
  /-- Call `CrouchingTimeline->Play()`. -/
  | TimelinePlay
  /-- Call `CrouchingTimeline->Reverse()`. -/
  | TimelineReverse
deriving DecidableEq

/-- What the actor reads from the engine through getters. -/
structure Engine where
  /-- Value of `GetVelocity().Size()`, which the code compares with `WalkSpeed`. -/
  VelocitySize : F32
  /-- Flag `ACharacter::bIsCrouched`. -/
  bIsCrouched : Bool
  /-- Value of `GetCharacterMovement()->IsMovingOnGround()`. -/
  IsMovingOnGround : Bool
  /-- Value of `GetActorForwardVector()`. -/
  ActorForwardVector : FVector
  /-- Value of `GetActorRightVector()`. -/
  ActorRightVector : FVector
  /-- Value of `GetActorLocation()`. -/
  ActorLocation : FVector
  /-- Value of `GetControlRotation()`. -/
  ControlRotation : FRotator
  /-- Value of `GunMesh1P->GetSocketLocation(name)`. -/
  GunMesh1PSocketLocation : String → FVector
  /-- Value of `Mesh1P->GetAnimInstance()`. -/
  Mesh1PAnimInstance : Option Nat
  /-- Value of `GetCapsuleComponent()->GetScaledCapsuleHalfHeight()`. -/
  ScaledCapsuleHalfHeight : ℚ
  /-- Value of `GetCharacterMovement()->CrouchedHalfHeight`. -/
  CrouchedHalfHeight : ℚ
  /-- Value of `APawn::BaseEyeHeight`. -/
  BaseEyeHeight : ℚ

/-- State of one `AFPSCharacter`. -/
structure AFPSCharacter where
  /-- Engine-side values the actor only reads. -/
  engine : Engine
  SprintSpeed : Int
  WalkSpeed : Int
  CrouchingCurve : Option Nat
  ProjectileClass : Option Nat
  FireSound : Option Nat
  FireAnimation : Option Nat
  IsAiming : Bool
  sprintEnabled : Bool
  sprintAllowed : Bool
  CamMiddle : FVector
  CamTop : FVector
  CamBottom : FVector
  CamStart : FVector
  CamFinish : FVector
  CrouchHeightDiff : ℚ
  wantsToCrouch : Bool
  /-- Field `GetCharacterMovement()->MaxWalkSpeed`. -/
  MaxWalkSpeed : ℚ
  /-- Relative location of `FirstPersonCameraComponent`. -/
  CameraRelativeLocation : FVector
  /-- Relative location of `Mesh3P`. -/
  Mesh3PRelativeLocation : FVector
  /-- Engine calls issued so far, oldest first. -/
  calls : List Call

namespace AFPSCharacter

/-- Append one engine call to the log. -/
def call (c : AFPSCharacter) (e : Call) : AFPSCharacter :=
  { c with calls := c.calls ++ [e] }

/-- Source: `AFPSCharacter::BeginPlay`. -/
def BeginPlay (c : AFPSCharacter) : AFPSCharacter :=
  let c := c.call .SuperBeginPlay
  let c := c.call (.Mesh1PSetHiddenInGame false true)
  let c := c.call (.AssertNotNull c.CrouchingCurve.isSome "No crouching curve assigned")
  let c := c.call (.AddInterpFloat c.CrouchingCurve "CrouchingCallback" "CrouchingTimelineAnimation")
  let c := { c with CamMiddle := c.CameraRelativeLocation }
  let c := { c with
    CrouchHeightDiff := c.engine.ScaledCapsuleHalfHeight - c.engine.CrouchedHalfHeight }
  let c := { c with
    CamTop := ⟨c.CamMiddle.X, c.CamMiddle.Y, c.CamMiddle.Z + c.CrouchHeightDiff⟩ }
  { c with CamBottom := ⟨c.CamMiddle.X, c.CamMiddle.Y, c.CamMiddle.Z - c.CrouchHeightDiff⟩ }

/-- Source: `AFPSCharacter::Tick`. -/
def Tick (c : AFPSCharacter) (DeltaTime : ℚ) : AFPSCharacter :=
  let c := c.call (.SuperTick DeltaTime)
  if c.wantsToCrouch && c.engine.IsMovingOnGround then
    let c := { c with wantsToCrouch := false }
    c.call .Crouch
  else c

/-- Source: `AFPSCharacter::Fire`. -/
def Fire (c : AFPSCharacter) : AFPSCharacter :=
  let c :=
    match c.ProjectileClass with
    | some cls =>
      let MuzzleLocation := c.engine.GunMesh1PSocketLocation "Muzzle"
      let MuzzleRotation := c.engine.ControlRotation
      c.call (.SpawnActor cls MuzzleLocation MuzzleRotation
        .AdjustIfPossibleButDontSpawnIfColliding)
    | none => c
  let c :=
    match c.FireSound with
    | some snd => c.call (.PlaySoundAtLocation snd c.engine.ActorLocation)
    | none => c
  match c.FireAnimation with
  | some anim =>
    match c.engine.Mesh1PAnimInstance with
    | some inst => c.call (.PlaySlotAnimationAsDynamicMontage inst anim "Arms" 0)
    | none => c
  | none => c

/-- Source: `AFPSCharacter::ShouldStartSprinting`. -/
def ShouldStartSprinting (c : AFPSCharacter) (ForwardMovement : F32) : Bool :=
  c.sprintAllowed && c.sprintEnabled && F32.gt ForwardMovement (F32.ofInt 0)
    && F32.le c.engine.VelocitySize (F32.ofInt c.WalkSpeed)

/-- Source: `AFPSCharacter::ShouldStopSprinting`. -/
def ShouldStopSprinting (c : AFPSCharacter) (ForwardMovement : F32) : Bool :=
  if F32.le c.engine.VelocitySize (F32.ofInt c.WalkSpeed) then false
  else !c.sprintAllowed || !c.sprintEnabled || F32.le ForwardMovement (F32.ofInt 0)

/-- Source: `AFPSCharacter::StartSprinting`. -/
def StartSprinting (c : AFPSCharacter) : AFPSCharacter :=
  { c with MaxWalkSpeed := (intToFloat c.SprintSpeed : ℚ) }

/-- Source: `AFPSCharacter::StopSprinting`. -/
def StopSprinting (c : AFPSCharacter) : AFPSCharacter :=
  { c with MaxWalkSpeed := (intToFloat c.WalkSpeed : ℚ) }

/-- Source: `AFPSCharacter::MoveForward`. -/
def MoveForward (c : AFPSCharacter) (value : F32) : AFPSCharacter :=
  let c :=
    if F32.ne value 0 then c.call (.AddMovementInput c.engine.ActorForwardVector value) else c
  if c.ShouldStartSprinting value then c.StartSprinting
  else if c.ShouldStopSprinting value then c.StopSprinting
  else c

/-- Source: `AFPSCharacter::MoveRight`. -/
def MoveRight (c : AFPSCharacter) (value : F32) : AFPSCharacter :=
  if F32.ne value 0 then c.call (.AddMovementInput c.engine.ActorRightVector value) else c

/-- Source: `AFPSCharacter::TurnAtRate`. -/
def TurnAtRate (c : AFPSCharacter) (rate : ℚ) : AFPSCharacter :=
  c.call (.AddControllerYawInput rate)

/-- Source: `AFPSCharacter::LookUpAtRate`. -/
def LookUpAtRate (c : AFPSCharacter) (rate : ℚ) : AFPSCharacter :=
  c.call (.AddControllerPitchInput rate)

/-- Source: `AFPSCharacter::EnableSprint`. -/
def EnableSprint (c : AFPSCharacter) : AFPSCharacter :=
  let c := { c with sprintEnabled := true }
  if c.engine.bIsCrouched then c.call .UnCrouch else c

/-- Source: `AFPSCharacter::DisableSprint`. -/
def DisableSprint (c : AFPSCharacter) : AFPSCharacter :=
  { c with sprintEnabled := false }

/-- Source: `AFPSCharacter::Jump`. -/
def Jump (c : AFPSCharacter) : AFPSCharacter :=
  if c.engine.bIsCrouched then c.call .UnCrouch
  else c.call .SuperJump

/-- Source: `AFPSCharacter::ToggleCrouching`. -/
def ToggleCrouching (c : AFPSCharacter) : AFPSCharacter :=
  if !c.engine.bIsCrouched then { c with wantsToCrouch := true }
  else c.call .UnCrouch

/-- Source: `AFPSCharacter::OnStartCrouch`. -/
def OnStartCrouch (c : AFPSCharacter) (_HalfHeightAdjust _ScaledHalfHeightAdjust : ℚ) :
    AFPSCharacter :=
  let loc := c.Mesh3PRelativeLocation
  let c := { c with Mesh3PRelativeLocation := ⟨loc.X, loc.Y, loc.Z + c.CrouchHeightDiff - 7⟩ }
  let c := { c with CamStart := c.CamTop }
  let c := { c with CamFinish := c.CamMiddle }
  c.call .TimelinePlay

/-- Source: `AFPSCharacter::OnEndCrouch`. -/
def OnEndCrouch (c : AFPSCharacter) (_HalfHeightAdjust _ScaledHalfHeightAdjust : ℚ) :
    AFPSCharacter :=
  let loc := c.Mesh3PRelativeLocation
  let c := { c with Mesh3PRelativeLocation := ⟨loc.X, loc.Y, loc.Z - c.CrouchHeightDiff + 7⟩ }
  let c := { c with CamStart := c.CamMiddle }
  let c := { c with CamFinish := c.CamBottom }
  c.call .TimelineReverse

/-- Source: `AFPSCharacter::CrouchingCallback`. -/
def CrouchingCallback (c : AFPSCharacter) (value : ℚ) : AFPSCharacter :=
  { c with CameraRelativeLocation := FMath.Lerp c.CamFinish c.CamStart value }

end AFPSCharacter

/-- Source: the constructor `AFPSCharacter::AFPSCharacter` together with the default member
initialisers of the header.  `pre` is the object as the engine hands it to the constructor;
fields the constructor does not assign keep their value.  The creation, attachment,
visibility and shadow settings of the components and the capsule size configure the engine
only and touch no field of the model. -/
def AFPSCharacter.AFPSCharacter (pre : AFPSCharacter) : AFPSCharacter :=
  let c := { pre with
    SprintSpeed := 900
    WalkSpeed := 600
    IsAiming := false
    sprintEnabled := false
    sprintAllowed := true
    wantsToCrouch := false }
  let c := { c with CameraRelativeLocation := ⟨0, 0, c.engine.BaseEyeHeight⟩ }
  let c := { c with Mesh3PRelativeLocation := ⟨38 / 10, -293 / 100, -89⟩ }
  { c with MaxWalkSpeed := (intToFloat c.WalkSpeed : ℚ) }

/-- One operation on the actor: a member function called by the input system or by the
engine, or `engine e`, the engine replacing the values the actor reads from it. -/
inductive Op
  | BeginPlay
  | Tick (DeltaTime : ℚ)
  | Fire
  | MoveForward (value : F32)
  | MoveRight (value : F32)
  | TurnAtRate (rate : ℚ)
  | LookUpAtRate (rate : ℚ)
  | EnableSprint
  | DisableSprint
  | Jump
  | ToggleCrouching
  | OnStartCrouch (HalfHeightAdjust ScaledHalfHeightAdjust : ℚ)
  | OnEndCrouch (HalfHeightAdjust ScaledHalfHeightAdjust : ℚ)
  | CrouchingCallback (value : ℚ)
  | engine (e : Engine)

/-- Effect of one operation. -/
def step (c : AFPSCharacter) : Op → AFPSCharacter
  | .BeginPlay => c.BeginPlay
  | .Tick dt => c.Tick dt
  | .Fire => c.Fire
  | .MoveForward v => c.MoveForward v
  | .MoveRight v => c.MoveRight v
  | .TurnAtRate r => c.TurnAtRate r
  | .LookUpAtRate r => c.LookUpAtRate r
  | .EnableSprint => c.EnableSprint
  | .DisableSprint => c.DisableSprint
  | .Jump => c.Jump
  | .ToggleCrouching => c.ToggleCrouching
  | .OnStartCrouch a b => c.OnStartCrouch a b
  | .OnEndCrouch a b => c.OnEndCrouch a b
  | .CrouchingCallback v => c.CrouchingCallback v
  | .engine e => { c with engine := e }

/-- Effect of a sequence of operations, first to last. -/
def run (c : AFPSCharacter) (ops : List Op) : AFPSCharacter := ops.foldl step c

/-- Whether an operation is a `Tick`. -/
def Op.isTick : Op → Bool
  | .Tick _ => true
  | _ => false

/-- No `Tick` of `ops`, run from `c`, happens while the character is moving on the ground. -/
def noGroundedTick (c : AFPSCharacter) : List Op → Bool
  | [] => true
  | op :: ops => !(op.isTick && c.engine.IsMovingOnGround) && noGroundedTick (step c op) ops

/-- Whether an operation is `BeginPlay`. -/
def Op.isBeginPlay : Op → Bool
  | .BeginPlay => true
  | _ => false

/-- Whether an operation is one of the crouch notifications `OnStartCrouch`, `OnEndCrouch`. -/
def Op.isCrouchEvent : Op → Bool
  | .OnStartCrouch _ _ => true
  | .OnEndCrouch _ _ => true
  | _ => false

/-- Whether a call is a projectile spawn. -/
def Call.isSpawnActor : Call → Bool
  | .SpawnActor _ _ _ _ => true
  | _ => false

/-- Whether a call is a sound playback. -/
def Call.isPlaySoundAtLocation : Call → Bool
  | .PlaySoundAtLocation _ _ => true
  | _ => false

/-- Whether a call is a slot-animation playback. -/
def Call.isPlaySlotAnimation : Call → Bool
  | .PlaySlotAnimationAsDynamicMontage _ _ _ _ => true
  | _ => false

/-- The calls `Fire` issues from state `c`, in order. -/
def fireCalls (c : AFPSCharacter) : List Call :=
  (match c.ProjectileClass with
    | some cls =>
      [Call.SpawnActor cls (c.engine.GunMesh1PSocketLocation "Muzzle") c.engine.ControlRotation
        .AdjustIfPossibleButDontSpawnIfColliding]
    | none => [])
  ++ (match c.FireSound with
    | some snd => [Call.PlaySoundAtLocation snd c.engine.ActorLocation]
    | none => [])
  ++ (match c.FireAnimation, c.engine.Mesh1PAnimInstance with
    | some anim, some inst => [Call.PlaySlotAnimationAsDynamicMontage inst anim "Arms" 0]
    | _, _ => [])

/-- The value C1 gives for `MaxWalkSpeed` after `MoveForward(v)`, read as written: `s` and `v`
are compared, as `float`s, with the exact values of `WalkSpeed` and `0`, and the value set is
the exact `SprintSpeed` or `WalkSpeed`. -/
def claimedMaxWalkSpeed (c : AFPSCharacter) (v : F32) : ℚ :=
  if c.sprintAllowed = true ∧ c.sprintEnabled = true ∧ F32.gt v 0 = true
      ∧ F32.le c.engine.VelocitySize (F32.finite c.WalkSpeed) = true then
    (c.SprintSpeed : ℚ)
  else if F32.gt c.engine.VelocitySize (F32.finite c.WalkSpeed) = true
      ∧ (c.sprintAllowed = false ∨ c.sprintEnabled = false ∨ F32.le v 0 = true) then
    (c.WalkSpeed : ℚ)
  else c.MaxWalkSpeed

/-- The speed invariant: both configured speeds are exact as `float`s and `MaxWalkSpeed` is
one of them. -/
def SpeedInv (c : AFPSCharacter) : Prop :=
  intToFloat c.WalkSpeed = c.WalkSpeed ∧ intToFloat c.SprintSpeed = c.SprintSpeed
    ∧ (c.MaxWalkSpeed = (c.WalkSpeed : ℚ) ∨ c.MaxWalkSpeed = (c.SprintSpeed : ℚ))

instance (c : AFPSCharacter) : Decidable (SpeedInv c) := by
  unfold SpeedInv
  infer_instance

/-- A concrete engine reading: standing still on the ground, not crouched. -/
def exampleEngine : Engine where
  VelocitySize := 0
  bIsCrouched := false
  IsMovingOnGround := true
  ActorForwardVector := ⟨1, 0, 0⟩
  ActorRightVector := ⟨0, 1, 0⟩
  ActorLocation := ⟨0, 0, 0⟩
  ControlRotation := ⟨0, 0, 0⟩
  GunMesh1PSocketLocation := fun _ => ⟨50, 10, 60⟩
  Mesh1PAnimInstance := some 1
  ScaledCapsuleHalfHeight := 89
  CrouchedHalfHeight := 40
  BaseEyeHeight := 64

/-- A concrete object as handed to the constructor: every field zero or null. -/
def examplePre : AFPSCharacter where
  engine := exampleEngine
  SprintSpeed := 0
  WalkSpeed := 0
  CrouchingCurve := none
  ProjectileClass := none
  FireSound := none
  FireAnimation := none
  IsAiming := false
  sprintEnabled := false
  sprintAllowed := false
  CamMiddle := ⟨0, 0, 0⟩
  CamTop := ⟨0, 0, 0⟩
  CamBottom := ⟨0, 0, 0⟩
  CamStart := ⟨0, 0, 0⟩
  CamFinish := ⟨0, 0, 0⟩
  CrouchHeightDiff := 0
  wantsToCrouch := false
  MaxWalkSpeed := 0
  CameraRelativeLocation := ⟨0, 0, 0⟩
  Mesh3PRelativeLocation := ⟨0, 0, 0⟩
  calls := []

/-- The freshly constructed example character. -/
def exampleCharacter : AFPSCharacter := AFPSCharacter.AFPSCharacter examplePre

/-- The example character while crouched. -/
def exampleCrouched : AFPSCharacter :=
  { exampleCharacter with engine := { exampleEngine with bIsCrouched := true } }

/-- The example character after the player holds sprint and pushes forward once. -/
def exampleSprinting : AFPSCharacter := run exampleCharacter [.EnableSprint, .MoveForward 1]

/-- The sprinting example character when the engine reports a NaN velocity magnitude. -/
def exampleNaNVelocity : AFPSCharacter :=
  run exampleCharacter
    [.EnableSprint, .MoveForward 1, .engine { exampleEngine with VelocitySize := F32.nan }]

/-- The example character with sprint held and speeds set in the editor to values that are
not exact as `float`s: `WalkSpeed = 2^24 + 3`, `SprintSpeed = 2^24 + 1`; `MaxWalkSpeed` is
the `float` of `WalkSpeed` and the velocity magnitude is `2^24 + 4`. -/
def exampleLargeSpeeds : AFPSCharacter :=
  { exampleCharacter with
    WalkSpeed := 16777219
    SprintSpeed := 16777217
    sprintEnabled := true
    MaxWalkSpeed := 16777220
    engine := { exampleEngine with VelocitySize := 16777220 } }

/-- The example character with sprint held, before any forward input. -/
def exampleSprintHeld : AFPSCharacter := run exampleCharacter [.EnableSprint]

/-- Operations between `BeginPlay` and a crouch notification. -/
def exampleBeforeCrouch : List Op := [.ToggleCrouching, .Tick 1]

/-- Operations between a crouch notification and a later timeline callback. -/
def exampleDuringCrouch : List Op := [.CrouchingCallback 1, .Tick 1, .MoveForward 1]

/-- Operations between a crouch request and the Tick that serves it: a jump, the engine
reporting the character airborne, a Tick in the air, the engine reporting it on the ground. -/
def exampleAirborneOps : List Op :=
  [.Jump, .engine { exampleEngine with IsMovingOnGround := false }, .Tick 1, .engine exampleEngine]

/-! ## Shared lemmas -/

theorem excessBits_of_lt (a : Nat) (h : a < 2 ^ 24) : excessBits a a = 0 := by
  cases a with
  | zero => rfl
  | succ k => simp only [excessBits, if_pos h]

theorem roundNearestEven_zero (a : Nat) : roundNearestEven a 0 = a := by
  simp [roundNearestEven, Nat.mod_one]

theorem intToFloat_of_lt (n : Int) (h : n.natAbs < 2 ^ 24) : intToFloat n = n := by
  unfold intToFloat
  simp only [excessBits_of_lt _ h, roundNearestEven_zero]
  split_ifs with h0 <;> omega

theorem intToFloat_zero : intToFloat 0 = 0 := by decide

theorem intToFloat_600 : intToFloat 600 = 600 := by decide

theorem intToFloat_900 : intToFloat 900 = 900 := by decide

theorem F32.ofNat_eq (n : Nat) : (OfNat.ofNat n : F32) = F32.finite (n : ℚ) := rfl

theorem F32.ofInt_zero : F32.ofInt 0 = 0 := by
  simp [F32.ofInt, intToFloat_zero, F32.ofNat_eq]

theorem F32.le_finite_eq_false (s : F32) (q : ℚ) (h : s ≠ F32.nan) :
    F32.le s (F32.finite q) = false ↔ F32.gt s (F32.finite q) = true := by
  cases s <;> simp_all [F32.le, F32.gt, F32.lt]

theorem Fire_eq (c : AFPSCharacter) : c.Fire = { c with calls := c.calls ++ fireCalls c } := by
  obtain ⟨eng, _, _, _, cls, snd, anim, _, _, _, _, _, _, _, _, _, _, _, _, _, _⟩ := c
  obtain ⟨_, _, _, _, _, _, _, _, inst, _, _, _⟩ := eng
  cases cls <;> cases snd <;> cases anim <;> cases inst <;>
    simp [AFPSCharacter.Fire, fireCalls, AFPSCharacter.call]

theorem step_speeds (c : AFPSCharacter) (op : Op) :
    (step c op).WalkSpeed = c.WalkSpeed ∧ (step c op).SprintSpeed = c.SprintSpeed := by
  cases op <;>
    simp only [step, Fire_eq, AFPSCharacter.BeginPlay, AFPSCharacter.Tick,
      AFPSCharacter.MoveForward, AFPSCharacter.MoveRight, AFPSCharacter.TurnAtRate,
      AFPSCharacter.LookUpAtRate, AFPSCharacter.EnableSprint, AFPSCharacter.DisableSprint,
      AFPSCharacter.Jump, AFPSCharacter.ToggleCrouching, AFPSCharacter.OnStartCrouch,
      AFPSCharacter.OnEndCrouch, AFPSCharacter.CrouchingCallback,
      AFPSCharacter.StartSprinting, AFPSCharacter.StopSprinting, AFPSCharacter.call] <;>
    (try split_ifs) <;> simp

theorem step_MaxWalkSpeed (c : AFPSCharacter) (op : Op) :
    (step c op).MaxWalkSpeed = c.MaxWalkSpeed
      ∨ (step c op).MaxWalkSpeed = (intToFloat c.WalkSpeed : ℚ)
      ∨ (step c op).MaxWalkSpeed = (intToFloat c.SprintSpeed : ℚ) := by
  cases op <;>
    simp only [step, Fire_eq, AFPSCharacter.BeginPlay, AFPSCharacter.Tick,
      AFPSCharacter.MoveForward, AFPSCharacter.MoveRight, AFPSCharacter.TurnAtRate,
      AFPSCharacter.LookUpAtRate, AFPSCharacter.EnableSprint, AFPSCharacter.DisableSprint,
      AFPSCharacter.Jump, AFPSCharacter.ToggleCrouching, AFPSCharacter.OnStartCrouch,
      AFPSCharacter.OnEndCrouch, AFPSCharacter.CrouchingCallback,
      AFPSCharacter.StartSprinting, AFPSCharacter.StopSprinting, AFPSCharacter.call] <;>
    (try split_ifs) <;> simp

theorem step_SpeedInv (c : AFPSCharacter) (op : Op) (h : SpeedInv c) : SpeedInv (step c op) := by
  unfold SpeedInv at *
  rw [(step_speeds c op).1, (step_speeds c op).2]
  refine ⟨h.1, h.2.1, ?_⟩
  rcases step_MaxWalkSpeed c op with e | e | e
  · rw [e]; exact h.2.2
  · rw [h.1] at e; exact Or.inl e
  · rw [h.2.1] at e; exact Or.inr e

theorem run_speeds (ops : List Op) (c : AFPSCharacter) :
    (run c ops).WalkSpeed = c.WalkSpeed ∧ (run c ops).SprintSpeed = c.SprintSpeed := by
  induction ops generalizing c with
  | nil => exact ⟨rfl, rfl⟩
  | cons op ops ih =>
    have h1 := ih (step c op)
    have h2 := step_speeds c op
    simp only [run, List.foldl_cons] at h1 ⊢
    exact ⟨h1.1.trans h2.1, h1.2.trans h2.2⟩

theorem run_SpeedInv (ops : List Op) (c : AFPSCharacter) (h : SpeedInv c) :
    SpeedInv (run c ops) := by
  induction ops generalizing c with
  | nil => exact h
  | cons op ops ih =>
    simp only [run, List.foldl_cons]
    exact ih (step c op) (step_SpeedInv c op h)

theorem FVector.add_mk (a b : FVector) : a + b = ⟨a.X + b.X, a.Y + b.Y, a.Z + b.Z⟩ := rfl

theorem FVector.sub_mk (a b : FVector) : a - b = ⟨a.X - b.X, a.Y - b.Y, a.Z - b.Z⟩ := rfl

theorem FVector.scale_mk (k : ℚ) (a : FVector) : k * a = ⟨k * a.X, k * a.Y, k * a.Z⟩ := rfl

theorem step_keeps_request (c : AFPSCharacter) (op : Op) (h : c.wantsToCrouch = true)
    (hg : (op.isTick && c.engine.IsMovingOnGround) = false) :
    (step c op).wantsToCrouch = true := by
  cases op <;>
    simp only [step, Fire_eq, AFPSCharacter.BeginPlay, AFPSCharacter.Tick,
      AFPSCharacter.MoveForward, AFPSCharacter.MoveRight, AFPSCharacter.TurnAtRate,
      AFPSCharacter.LookUpAtRate, AFPSCharacter.EnableSprint, AFPSCharacter.DisableSprint,
      AFPSCharacter.Jump, AFPSCharacter.ToggleCrouching, AFPSCharacter.OnStartCrouch,
      AFPSCharacter.OnEndCrouch, AFPSCharacter.CrouchingCallback,
      AFPSCharacter.StartSprinting, AFPSCharacter.StopSprinting, AFPSCharacter.call] <;>
    (try split_ifs) <;> simp_all [Op.isTick]

theorem run_keeps_request (ops : List Op) (c : AFPSCharacter) (h : c.wantsToCrouch = true)
    (hn : noGroundedTick c ops = true) : (run c ops).wantsToCrouch = true := by
  induction ops generalizing c with
  | nil => exact h
  | cons op ops ih =>
    simp only [noGroundedTick, Bool.and_eq_true, Bool.not_eq_true'] at hn
    simp only [run, List.foldl_cons]
    exact ih (step c op) (step_keeps_request c op h hn.1) hn.2

theorem step_cams (c : AFPSCharacter) (op : Op) (h : op.isBeginPlay = false) :
    (step c op).CamMiddle = c.CamMiddle ∧ (step c op).CamTop = c.CamTop
      ∧ (step c op).CamBottom = c.CamBottom := by
  cases op <;>
    simp only [step, Fire_eq, AFPSCharacter.BeginPlay, AFPSCharacter.Tick,
      AFPSCharacter.MoveForward, AFPSCharacter.MoveRight, AFPSCharacter.TurnAtRate,
      AFPSCharacter.LookUpAtRate, AFPSCharacter.EnableSprint, AFPSCharacter.DisableSprint,
      AFPSCharacter.Jump, AFPSCharacter.ToggleCrouching, AFPSCharacter.OnStartCrouch,
      AFPSCharacter.OnEndCrouch, AFPSCharacter.CrouchingCallback,
      AFPSCharacter.StartSprinting, AFPSCharacter.StopSprinting, AFPSCharacter.call] <;>
    (try split_ifs) <;> simp_all [Op.isBeginPlay]

theorem run_cams (ops : List Op) (c : AFPSCharacter)
    (h : ops.all (fun op => !op.isBeginPlay) = true) :
    (run c ops).CamMiddle = c.CamMiddle ∧ (run c ops).CamTop = c.CamTop
      ∧ (run c ops).CamBottom = c.CamBottom := by
  induction ops generalizing c with
  | nil => exact ⟨rfl, rfl, rfl⟩
  | cons op ops ih =>
    simp only [List.all_cons, Bool.and_eq_true, Bool.not_eq_true'] at h
    have h1 := ih (step c op) h.2
    have h2 := step_cams c op h.1
    simp only [run, List.foldl_cons] at h1 ⊢
    exact ⟨h1.1.trans h2.1, h1.2.1.trans h2.2.1, h1.2.2.trans h2.2.2⟩

theorem step_cam_targets (c : AFPSCharacter) (op : Op) (h : op.isCrouchEvent = false) :
    (step c op).CamStart = c.CamStart ∧ (step c op).CamFinish = c.CamFinish := by
  cases op <;>
    simp only [step, Fire_eq, AFPSCharacter.BeginPlay, AFPSCharacter.Tick,
      AFPSCharacter.MoveForward, AFPSCharacter.MoveRight, AFPSCharacter.TurnAtRate,
      AFPSCharacter.LookUpAtRate, AFPSCharacter.EnableSprint, AFPSCharacter.DisableSprint,
      AFPSCharacter.Jump, AFPSCharacter.ToggleCrouching, AFPSCharacter.OnStartCrouch,
      AFPSCharacter.OnEndCrouch, AFPSCharacter.CrouchingCallback,
      AFPSCharacter.StartSprinting, AFPSCharacter.StopSprinting, AFPSCharacter.call] <;>
    (try split_ifs) <;> simp_all [Op.isCrouchEvent]

theorem run_cam_targets (ops : List Op) (c : AFPSCharacter)
    (h : ops.all (fun op => !op.isCrouchEvent) = true) :
    (run c ops).CamStart = c.CamStart ∧ (run c ops).CamFinish = c.CamFinish := by
  induction ops generalizing c with
  | nil => exact ⟨rfl, rfl⟩
  | cons op ops ih =>
    simp only [List.all_cons, Bool.and_eq_true, Bool.not_eq_true'] at h
    have h1 := ih (step c op) h.2
    have h2 := step_cam_targets c op h.1
    simp only [run, List.foldl_cons] at h1 ⊢
    exact ⟨h1.1.trans h2.1, h1.2.trans h2.2⟩

theorem BeginPlay_cams (c : AFPSCharacter) :
    c.BeginPlay.CamMiddle = c.CameraRelativeLocation
    ∧ c.BeginPlay.CamTop = ⟨c.CameraRelativeLocation.X, c.CameraRelativeLocation.Y,
        c.CameraRelativeLocation.Z
          + (c.engine.ScaledCapsuleHalfHeight - c.engine.CrouchedHalfHeight)⟩
    ∧ c.BeginPlay.CamBottom = ⟨c.CameraRelativeLocation.X, c.CameraRelativeLocation.Y,
        c.CameraRelativeLocation.Z
          - (c.engine.ScaledCapsuleHalfHeight - c.engine.CrouchedHalfHeight)⟩ := by
  simp [AFPSCharacter.BeginPlay, AFPSCharacter.call]

theorem MoveForward_fields (c : AFPSCharacter) (v : F32) :
    (c.MoveForward v).MaxWalkSpeed =
      (if c.sprintAllowed = true ∧ c.sprintEnabled = true ∧ F32.gt v 0 = true
            ∧ F32.le c.engine.VelocitySize (F32.ofInt c.WalkSpeed) = true then
          (intToFloat c.SprintSpeed : ℚ)
        else if F32.le c.engine.VelocitySize (F32.ofInt c.WalkSpeed) = false
            ∧ (c.sprintAllowed = false ∨ c.sprintEnabled = false ∨ F32.le v 0 = true) then
          (intToFloat c.WalkSpeed : ℚ)
        else c.MaxWalkSpeed)
    ∧ (c.MoveForward v).sprintEnabled = c.sprintEnabled
    ∧ (c.MoveForward v).sprintAllowed = c.sprintAllowed
    ∧ (c.MoveForward v).wantsToCrouch = c.wantsToCrouch
    ∧ (c.MoveForward v).calls =
        c.calls ++ (if F32.ne v 0 = true
          then [Call.AddMovementInput c.engine.ActorForwardVector v] else []) := by
  cases ha : c.sprintAllowed <;> cases he : c.sprintEnabled <;>
    cases h1 : F32.gt v 0 <;>
    cases h2 : F32.le c.engine.VelocitySize (F32.ofInt c.WalkSpeed) <;>
    cases h3 : F32.le v 0 <;> cases h4 : F32.ne v 0 <;>
    simp [AFPSCharacter.MoveForward, AFPSCharacter.ShouldStartSprinting,
      AFPSCharacter.ShouldStopSprinting, AFPSCharacter.StartSprinting,
      AFPSCharacter.StopSprinting, AFPSCharacter.call, F32.ofInt_zero,
      ha, he, h1, h2, h3, h4]

/-! ## The claims -/

/-- C1, amended.  Let `s` be the velocity magnitude.  On every state in which `s` is not NaN
and `WalkSpeed` and `SprintSpeed` are exact as `float`s (every `int` of magnitude below
`2 ^ 24` is), and for every forward input `v`, NaN and infinities included, `MoveForward(v)`
sets `MaxWalkSpeed` to `SprintSpeed` when sprint is allowed and enabled, `v > 0` and
`s <= WalkSpeed`; otherwise to `WalkSpeed` when `s > WalkSpeed` and sprint is disallowed,
disabled or `v <= 0`; otherwise it leaves it unchanged: the value `claimedMaxWalkSpeed`.  The
three flags are unchanged, and the call log gains exactly one `AddMovementInput(forward, v)`
when `v != 0` and nothing otherwise. -/
theorem MoveForward_contract (c : AFPSCharacter) (v : F32)
    (hs : c.engine.VelocitySize ≠ F32.nan)
    (hW : intToFloat c.WalkSpeed = c.WalkSpeed)
    (hS : intToFloat c.SprintSpeed = c.SprintSpeed) :
    (c.MoveForward v).MaxWalkSpeed =
      (if c.sprintAllowed = true ∧ c.sprintEnabled = true ∧ F32.gt v 0 = true
            ∧ F32.le c.engine.VelocitySize (F32.finite c.WalkSpeed) = true then
          (c.SprintSpeed : ℚ)
        else if F32.gt c.engine.VelocitySize (F32.finite c.WalkSpeed) = true
            ∧ (c.sprintAllowed = false ∨ c.sprintEnabled = false ∨ F32.le v 0 = true) then
          (c.WalkSpeed : ℚ)
        else c.MaxWalkSpeed)
    ∧ (c.MoveForward v).MaxWalkSpeed = claimedMaxWalkSpeed c v
    ∧ (c.MoveForward v).sprintEnabled = c.sprintEnabled
    ∧ (c.MoveForward v).sprintAllowed = c.sprintAllowed
    ∧ (c.MoveForward v).wantsToCrouch = c.wantsToCrouch
    ∧ (c.MoveForward v).calls =
        c.calls ++ (if F32.ne v 0 = true
          then [Call.AddMovementInput c.engine.ActorForwardVector v] else []) := by
  have hof : F32.ofInt c.WalkSpeed = F32.finite (c.WalkSpeed : ℚ) := by
    simp [F32.ofInt, hW]
  have hgt := F32.le_finite_eq_false c.engine.VelocitySize (c.WalkSpeed : ℚ) hs
  obtain ⟨f1, f2, f3, f4, f5⟩ := MoveForward_fields c v
  have hm : (c.MoveForward v).MaxWalkSpeed = claimedMaxWalkSpeed c v := by
    rw [f1]
    simp only [claimedMaxWalkSpeed, hof, hW, hS, hgt]
  exact ⟨hm, hm, f2, f3, f4, f5⟩

/-- C1, amended, at a concrete input: the example character with sprint held (walk 600,
sprint 900, velocity magnitude 0) gets `MaxWalkSpeed = 900` from `MoveForward(1)`. -/
theorem MoveForward_contract_witness :
    exampleSprintHeld.engine.VelocitySize ≠ F32.nan
    ∧ intToFloat exampleSprintHeld.WalkSpeed = exampleSprintHeld.WalkSpeed
    ∧ intToFloat exampleSprintHeld.SprintSpeed = exampleSprintHeld.SprintSpeed
    ∧ (exampleSprintHeld.MoveForward 1).MaxWalkSpeed = 900 := by
  have h1 : exampleSprintHeld.engine.VelocitySize ≠ F32.nan := by decide
  have h2 : intToFloat exampleSprintHeld.WalkSpeed = exampleSprintHeld.WalkSpeed := by decide
  have h3 : intToFloat exampleSprintHeld.SprintSpeed = exampleSprintHeld.SprintSpeed := by
    decide
  refine ⟨h1, h2, h3, ?_⟩
  rw [(MoveForward_contract exampleSprintHeld 1 h1 h2 h3).1]
  simp [exampleSprintHeld, exampleCharacter, examplePre, exampleEngine, run, step,
    AFPSCharacter.AFPSCharacter, AFPSCharacter.EnableSprint, F32.gt, F32.lt, F32.le,
    F32.ofNat_eq]

/-- C1 as stated fails on the code.  With a NaN velocity magnitude the sprinting example
character gets `MaxWalkSpeed = 600` from `MoveForward(0)` where the claim leaves it at 900
(neither `s <= WalkSpeed` nor `s > WalkSpeed` holds).  With `WalkSpeed = 2^24 + 3`,
`SprintSpeed = 2^24 + 1` and `s = 2^24 + 4`, `MoveForward(1)` stores `2^24`, which is neither
the unchanged `2^24 + 4` the claim gives nor `SprintSpeed`. -/
theorem MoveForward_claim_fails :
    (exampleNaNVelocity.MoveForward 0).MaxWalkSpeed = 600
    ∧ claimedMaxWalkSpeed exampleNaNVelocity 0 = 900
    ∧ (exampleNaNVelocity.MoveForward 0).MaxWalkSpeed ≠ claimedMaxWalkSpeed exampleNaNVelocity 0
    ∧ (exampleLargeSpeeds.MoveForward 1).MaxWalkSpeed = 16777216
    ∧ claimedMaxWalkSpeed exampleLargeSpeeds 1 = 16777220
    ∧ (exampleLargeSpeeds.SprintSpeed : ℚ) = 16777217
    ∧ (exampleLargeSpeeds.MoveForward 1).MaxWalkSpeed ≠ claimedMaxWalkSpeed exampleLargeSpeeds 1
    := by
  have i600 : intToFloat 600 = 600 := by decide
  have i900 : intToFloat 900 = 900 := by decide
  have iW : intToFloat 16777219 = 16777220 := by decide
  have iS : intToFloat 16777217 = 16777216 := by decide
  have a1 : (exampleNaNVelocity.MoveForward 0).MaxWalkSpeed = 600 := by
    rw [(MoveForward_fields _ _).1]
    simp [exampleNaNVelocity, exampleCharacter, examplePre, exampleEngine, run, step,
      AFPSCharacter.AFPSCharacter, AFPSCharacter.EnableSprint, AFPSCharacter.MoveForward,
      AFPSCharacter.ShouldStartSprinting, AFPSCharacter.ShouldStopSprinting,
      AFPSCharacter.StartSprinting, AFPSCharacter.StopSprinting, AFPSCharacter.call,
      F32.gt, F32.lt, F32.le, F32.ne, F32.ofInt, F32.ofNat_eq, intToFloat_zero, i600, i900]
  have a2 : claimedMaxWalkSpeed exampleNaNVelocity 0 = 900 := by
    simp [claimedMaxWalkSpeed, exampleNaNVelocity, exampleCharacter, examplePre,
      exampleEngine, run, step,
      AFPSCharacter.AFPSCharacter, AFPSCharacter.EnableSprint, AFPSCharacter.MoveForward,
      AFPSCharacter.ShouldStartSprinting, AFPSCharacter.ShouldStopSprinting,
      AFPSCharacter.StartSprinting, AFPSCharacter.StopSprinting, AFPSCharacter.call,
      F32.gt, F32.lt, F32.le, F32.ne, F32.ofInt, F32.ofNat_eq, intToFloat_zero, i600, i900]
  have b1 : (exampleLargeSpeeds.MoveForward 1).MaxWalkSpeed = 16777216 := by
    rw [(MoveForward_fields _ _).1]
    simp [exampleLargeSpeeds, exampleCharacter, examplePre, exampleEngine,
      AFPSCharacter.AFPSCharacter, F32.gt, F32.lt, F32.le, F32.ofInt, F32.ofNat_eq, intToFloat_zero, iW, iS]
  have b2 : claimedMaxWalkSpeed exampleLargeSpeeds 1 = 16777220 := by
    simp [claimedMaxWalkSpeed, exampleLargeSpeeds, exampleCharacter, examplePre,
      exampleEngine, AFPSCharacter.AFPSCharacter, F32.gt, F32.lt, F32.le, F32.ofNat_eq]
    norm_num
  refine ⟨a1, a2, ?_, b1, b2, ?_, ?_⟩
  · rw [a1, a2]; norm_num
  · simp [exampleLargeSpeeds]
  · rw [b1, b2]; norm_num

/-- C2. In the freshly constructed state `MaxWalkSpeed` equals `WalkSpeed`; no operation of the
class changes `WalkSpeed` or `SprintSpeed`; and after any sequence of operations run from the
freshly constructed state (engine updates of what the actor reads included) `MaxWalkSpeed`
equals `WalkSpeed` or `SprintSpeed`. -/
theorem MaxWalkSpeed_two_valued (pre : AFPSCharacter) (ops : List Op) :
    (AFPSCharacter.AFPSCharacter pre).MaxWalkSpeed
        = ((AFPSCharacter.AFPSCharacter pre).WalkSpeed : ℚ)
    ∧ (run (AFPSCharacter.AFPSCharacter pre) ops).WalkSpeed
        = (AFPSCharacter.AFPSCharacter pre).WalkSpeed
    ∧ (run (AFPSCharacter.AFPSCharacter pre) ops).SprintSpeed
        = (AFPSCharacter.AFPSCharacter pre).SprintSpeed
    ∧ ((run (AFPSCharacter.AFPSCharacter pre) ops).MaxWalkSpeed
          = ((run (AFPSCharacter.AFPSCharacter pre) ops).WalkSpeed : ℚ)
        ∨ (run (AFPSCharacter.AFPSCharacter pre) ops).MaxWalkSpeed
          = ((run (AFPSCharacter.AFPSCharacter pre) ops).SprintSpeed : ℚ)) := by
  have hc : (AFPSCharacter.AFPSCharacter pre).MaxWalkSpeed
      = ((AFPSCharacter.AFPSCharacter pre).WalkSpeed : ℚ) := by
    show ((intToFloat 600 : Int) : ℚ) = ((600 : Int) : ℚ)
    rw [intToFloat_600]
  have h0 : SpeedInv (AFPSCharacter.AFPSCharacter pre) :=
    ⟨intToFloat_600, intToFloat_900, Or.inl hc⟩
  exact ⟨hc, (run_speeds ops _).1, (run_speeds ops _).2, (run_SpeedInv ops _ h0).2.2⟩

/-- C3. `Jump`: when `bIsCrouched` is true the only effect is one `UnCrouch` call (no base-class
jump); when it is false the only effect is one `Super::Jump` call (no `UnCrouch`).  In both
cases `sprintEnabled`, `wantsToCrouch` and `MaxWalkSpeed` are unchanged. -/
theorem Jump_contract (c : AFPSCharacter) :
    (c.engine.bIsCrouched = true → c.Jump = { c with calls := c.calls ++ [Call.UnCrouch] })
    ∧ (c.engine.bIsCrouched = false → c.Jump = { c with calls := c.calls ++ [Call.SuperJump] })
    ∧ c.Jump.sprintEnabled = c.sprintEnabled
    ∧ c.Jump.wantsToCrouch = c.wantsToCrouch
    ∧ c.Jump.MaxWalkSpeed = c.MaxWalkSpeed := by
  cases h : c.engine.bIsCrouched <;> simp [AFPSCharacter.Jump, AFPSCharacter.call, h]

/-- C3 at concrete inputs: the crouched example character uncrouches, the standing one jumps. -/
theorem Jump_contract_witness :
    exampleCrouched.engine.bIsCrouched = true
    ∧ exampleCrouched.Jump.calls = [Call.UnCrouch]
    ∧ exampleCharacter.engine.bIsCrouched = false
    ∧ exampleCharacter.Jump.calls = [Call.SuperJump] :=
  ⟨rfl, congrArg AFPSCharacter.calls ((Jump_contract exampleCrouched).1 rfl),
    rfl, congrArg AFPSCharacter.calls ((Jump_contract exampleCharacter).2.1 rfl)⟩

/-- C4. `ToggleCrouching` on a crouched character only issues `UnCrouch`; on a character that
is not crouched it only sets `wantsToCrouch`.  After such a request, whatever operations
follow, as long as none of them is a `Tick` taken while moving on the ground, the request
stays pending, and a `Tick` taken while moving on the ground then issues exactly one `Crouch`
(after `Super::Tick`) and clears the request.  A `Tick` with no pending request, or with the
character not on the ground, issues no `Crouch` and changes nothing else. -/
theorem ToggleCrouching_contract :
    (∀ c : AFPSCharacter, c.engine.bIsCrouched = true →
        c.ToggleCrouching = { c with calls := c.calls ++ [Call.UnCrouch] })
    ∧ (∀ c : AFPSCharacter, c.engine.bIsCrouched = false →
        c.ToggleCrouching = { c with wantsToCrouch := true })
    ∧ (∀ (c : AFPSCharacter) (ops : List Op) (dt : ℚ), c.engine.bIsCrouched = false →
        noGroundedTick c.ToggleCrouching ops = true →
        (run c.ToggleCrouching ops).engine.IsMovingOnGround = true →
        (run c.ToggleCrouching ops).wantsToCrouch = true
        ∧ (run c.ToggleCrouching ops).Tick dt =
            { run c.ToggleCrouching ops with
              wantsToCrouch := false
              calls := (run c.ToggleCrouching ops).calls ++ [Call.SuperTick dt, Call.Crouch] })
    ∧ (∀ (c : AFPSCharacter) (dt : ℚ),
        c.wantsToCrouch = false ∨ c.engine.IsMovingOnGround = false →
        c.Tick dt = { c with calls := c.calls ++ [Call.SuperTick dt] }) := by
  refine ⟨?_, ?_, ?_, ?_⟩
  · intro c h
    simp [AFPSCharacter.ToggleCrouching, AFPSCharacter.call, h]
  · intro c h
    simp [AFPSCharacter.ToggleCrouching, h]
  · intro c ops dt h hn hg
    have hw : c.ToggleCrouching.wantsToCrouch = true := by
      simp [AFPSCharacter.ToggleCrouching, h]
    have hr := run_keeps_request ops c.ToggleCrouching hw hn
    refine ⟨hr, ?_⟩
    simp [AFPSCharacter.Tick, AFPSCharacter.call, hr, hg]
  · intro c dt h
    rcases h with h | h <;> simp [AFPSCharacter.Tick, AFPSCharacter.call, h]

/-- C4 at a concrete input: the example character asks to crouch, jumps, is ticked once in the
air and lands; the pending request is still there and the next Tick issues the one `Crouch`. -/
theorem ToggleCrouching_contract_witness :
    exampleCharacter.engine.bIsCrouched = false
    ∧ noGroundedTick exampleCharacter.ToggleCrouching exampleAirborneOps = true
    ∧ (run exampleCharacter.ToggleCrouching exampleAirborneOps).engine.IsMovingOnGround = true
    ∧ (run exampleCharacter.ToggleCrouching exampleAirborneOps).wantsToCrouch = true
    ∧ ((run exampleCharacter.ToggleCrouching exampleAirborneOps).Tick 2).wantsToCrouch = false
    ∧ ((run exampleCharacter.ToggleCrouching exampleAirborneOps).Tick 2).calls
        = [Call.SuperJump, Call.SuperTick 1, Call.SuperTick 2, Call.Crouch] := by
  have h := ToggleCrouching_contract.2.2.1 exampleCharacter exampleAirborneOps 2 rfl rfl rfl
  refine ⟨rfl, rfl, rfl, h.1, ?_, ?_⟩
  · rw [h.2]
  · rw [h.2]
    rfl

/-- C5, the code at a sprinting state.  The example character after `EnableSprint` and
`MoveForward(1)` is sprinting (`MaxWalkSpeed = SprintSpeed = 900`, `WalkSpeed = 600`).
`DisableSprint` clears `sprintEnabled` but leaves `MaxWalkSpeed` at 900, not at `WalkSpeed`;
and a following `MoveForward(1)` with the velocity still at most `WalkSpeed` leaves it at 900
too. -/
theorem DisableSprint_keeps_sprint_speed :
    exampleSprinting.MaxWalkSpeed = (exampleSprinting.SprintSpeed : ℚ)
    ∧ exampleSprinting.DisableSprint.sprintEnabled = false
    ∧ exampleSprinting.DisableSprint.WalkSpeed = 600
    ∧ exampleSprinting.DisableSprint.MaxWalkSpeed = 900
    ∧ exampleSprinting.DisableSprint.MaxWalkSpeed
        ≠ (exampleSprinting.DisableSprint.WalkSpeed : ℚ)
    ∧ (exampleSprinting.DisableSprint.MoveForward 1).MaxWalkSpeed = 900 := by
  have hs : exampleSprinting.MaxWalkSpeed = 900 := by
    simp [exampleSprinting, exampleCharacter, examplePre, exampleEngine, run, step,
      AFPSCharacter.AFPSCharacter, AFPSCharacter.EnableSprint, AFPSCharacter.MoveForward,
      AFPSCharacter.ShouldStartSprinting, AFPSCharacter.ShouldStopSprinting,
      AFPSCharacter.StartSprinting, AFPSCharacter.StopSprinting, AFPSCharacter.call,
      F32.gt, F32.lt, F32.le, F32.ne, F32.ofInt, F32.ofNat_eq, intToFloat_zero, intToFloat_600, intToFloat_900]
  have hS : exampleSprinting.SprintSpeed = 900 := (run_speeds _ exampleCharacter).2
  have hW : exampleSprinting.WalkSpeed = 600 := (run_speeds _ exampleCharacter).1
  have hv : exampleSprinting.engine.VelocitySize = 0 := by
    simp [exampleSprinting, exampleCharacter, examplePre, exampleEngine, run, step,
      AFPSCharacter.AFPSCharacter, AFPSCharacter.EnableSprint, AFPSCharacter.MoveForward,
      AFPSCharacter.ShouldStartSprinting, AFPSCharacter.ShouldStopSprinting,
      AFPSCharacter.StartSprinting, AFPSCharacter.StopSprinting, AFPSCharacter.call,
      F32.gt, F32.lt, F32.le, F32.ne, F32.ofInt, F32.ofNat_eq, intToFloat_zero, intToFloat_600, intToFloat_900]
  refine ⟨?_, rfl, hW, hs, ?_, ?_⟩
  · rw [hs, hS]; norm_num
  · show exampleSprinting.MaxWalkSpeed ≠ (exampleSprinting.WalkSpeed : ℚ)
    rw [hs, hW]; norm_num
  · simp [AFPSCharacter.MoveForward, AFPSCharacter.DisableSprint,
      AFPSCharacter.ShouldStartSprinting, AFPSCharacter.ShouldStopSprinting,
      AFPSCharacter.StartSprinting, AFPSCharacter.StopSprinting, AFPSCharacter.call,
      F32.gt, F32.lt, F32.le, F32.ne, F32.ofInt, F32.ofNat_eq, intToFloat_zero,
      intToFloat_600, hs, hW, hv]

/-- C6. `Fire` only appends engine calls, in this order: one projectile spawn (at the "Muzzle"
socket of the first-person gun mesh, with the control rotation, with the policy
`AdjustIfPossibleButDontSpawnIfColliding`) exactly when `ProjectileClass` is set; one sound
playback at the actor location exactly when `FireSound` is set; one "Arms"-slot animation
playback exactly when `FireAnimation` is set and the first-person mesh has an animation
instance.  The number of calls of each kind depends on its own asset only, and
`sprintEnabled`, `wantsToCrouch` and `MaxWalkSpeed` are unchanged. -/
theorem Fire_contract (c : AFPSCharacter) :
    c.Fire.calls = c.calls
      ++ (match c.ProjectileClass with
          | some cls =>
            [Call.SpawnActor cls (c.engine.GunMesh1PSocketLocation "Muzzle")
              c.engine.ControlRotation
              ESpawnActorCollisionHandlingMethod.AdjustIfPossibleButDontSpawnIfColliding]
          | none => [])
      ++ (match c.FireSound with
          | some snd => [Call.PlaySoundAtLocation snd c.engine.ActorLocation]
          | none => [])
      ++ (match c.FireAnimation, c.engine.Mesh1PAnimInstance with
          | some anim, some inst => [Call.PlaySlotAnimationAsDynamicMontage inst anim "Arms" 0]
          | _, _ => [])
    ∧ ((c.Fire.calls.drop c.calls.length).filter Call.isSpawnActor).length
        = (if c.ProjectileClass.isSome then 1 else 0)
    ∧ ((c.Fire.calls.drop c.calls.length).filter Call.isPlaySoundAtLocation).length
        = (if c.FireSound.isSome then 1 else 0)
    ∧ ((c.Fire.calls.drop c.calls.length).filter Call.isPlaySlotAnimation).length
        = (if c.FireAnimation.isSome && c.engine.Mesh1PAnimInstance.isSome then 1 else 0)
    ∧ c.Fire.sprintEnabled = c.sprintEnabled
    ∧ c.Fire.wantsToCrouch = c.wantsToCrouch
    ∧ c.Fire.MaxWalkSpeed = c.MaxWalkSpeed
    ∧ c.Fire = { c with calls := c.Fire.calls } := by
  rw [Fire_eq]
  simp only [List.drop_left]
  cases hP : c.ProjectileClass <;> cases hS : c.FireSound <;> cases hA : c.FireAnimation <;>
    cases hI : c.engine.Mesh1PAnimInstance <;>
    simp [fireCalls, hP, hS, hA, hI, Call.isSpawnActor, Call.isPlaySoundAtLocation,
      Call.isPlaySlotAnimation]

/-- C7. Let `m` be the camera's relative location and `d` the capsule half height minus the
crouched half height when `BeginPlay` runs.  After `BeginPlay`, then operations other than
`BeginPlay`, then `OnStartCrouch` (respectively `OnEndCrouch`), then operations other than the
two crouch notifications (none at all in the plain case), `(CamStart, CamFinish)` is
`(CamTop, CamMiddle)` (respectively `(CamMiddle, CamBottom)`), and `CrouchingCallback(v)` sets the
camera to `CamFinish + v * (CamStart - CamFinish)`: X and Y are those of `m`, Z is
`m.Z + v * d` (respectively `m.Z - d + v * d`), `v = 0` gives `CamFinish`, `v = 1` gives
`CamStart`. -/
theorem CrouchingCallback_linear (c : AFPSCharacter) (before during : List Op) (a b v : ℚ)
    (hb : before.all (fun op => !op.isBeginPlay) = true)
    (hd : during.all (fun op => !op.isCrouchEvent) = true) :
    let m := c.CameraRelativeLocation
    let d := c.engine.ScaledCapsuleHalfHeight - c.engine.CrouchedHalfHeight
    let s := run ((run c.BeginPlay before).OnStartCrouch a b) during
    let e := run ((run c.BeginPlay before).OnEndCrouch a b) during
    (c.BeginPlay.CamMiddle = m
      ∧ c.BeginPlay.CamTop = ⟨m.X, m.Y, m.Z + d⟩
      ∧ c.BeginPlay.CamBottom = ⟨m.X, m.Y, m.Z - d⟩)
    ∧ (s.CamStart = c.BeginPlay.CamTop ∧ s.CamFinish = c.BeginPlay.CamMiddle
      ∧ (s.CrouchingCallback v).CameraRelativeLocation
          = s.CamFinish + v * (s.CamStart - s.CamFinish)
      ∧ (s.CrouchingCallback v).CameraRelativeLocation = ⟨m.X, m.Y, m.Z + v * d⟩
      ∧ (s.CrouchingCallback 0).CameraRelativeLocation = s.CamFinish
      ∧ (s.CrouchingCallback 1).CameraRelativeLocation = s.CamStart)
    ∧ (e.CamStart = c.BeginPlay.CamMiddle ∧ e.CamFinish = c.BeginPlay.CamBottom
      ∧ (e.CrouchingCallback v).CameraRelativeLocation
          = e.CamFinish + v * (e.CamStart - e.CamFinish)
      ∧ (e.CrouchingCallback v).CameraRelativeLocation = ⟨m.X, m.Y, m.Z - d + v * d⟩
      ∧ (e.CrouchingCallback 0).CameraRelativeLocation = e.CamFinish
      ∧ (e.CrouchingCallback 1).CameraRelativeLocation = e.CamStart) := by
  intro m d s e
  obtain ⟨hM, hT, hB⟩ := BeginPlay_cams c
  obtain ⟨hM1, hT1, hB1⟩ := run_cams before c.BeginPlay hb
  have hs := run_cam_targets during ((run c.BeginPlay before).OnStartCrouch a b) hd
  have he := run_cam_targets during ((run c.BeginPlay before).OnEndCrouch a b) hd
  have hsS : s.CamStart = c.BeginPlay.CamTop := by
    rw [← hT1]; exact hs.1
  have hsF : s.CamFinish = c.BeginPlay.CamMiddle := by
    rw [← hM1]; exact hs.2
  have heS : e.CamStart = c.BeginPlay.CamMiddle := by
    rw [← hM1]; exact he.1
  have heF : e.CamFinish = c.BeginPlay.CamBottom := by
    rw [← hB1]; exact he.2
  refine ⟨⟨hM, hT, hB⟩, ⟨hsS, hsF, rfl, ?_, ?_, ?_⟩, ⟨heS, heF, rfl, ?_, ?_, ?_⟩⟩
  · simp only [AFPSCharacter.CrouchingCallback, FMath.Lerp, hsS, hsF, hM, hT,
      FVector.add_mk, FVector.sub_mk, FVector.scale_mk, FVector.mk.injEq]
    refine ⟨?_, ?_, ?_⟩ <;> ring
  · simp only [AFPSCharacter.CrouchingCallback, FMath.Lerp,
      FVector.add_mk, FVector.sub_mk, FVector.scale_mk]
    simp
  · simp only [AFPSCharacter.CrouchingCallback, FMath.Lerp,
      FVector.add_mk, FVector.sub_mk, FVector.scale_mk]
    simp
  · simp only [AFPSCharacter.CrouchingCallback, FMath.Lerp, heS, heF, hM, hB,
      FVector.add_mk, FVector.sub_mk, FVector.scale_mk, FVector.mk.injEq]
    refine ⟨?_, ?_, ?_⟩ <;> ring
  · simp only [AFPSCharacter.CrouchingCallback, FMath.Lerp,
      FVector.add_mk, FVector.sub_mk, FVector.scale_mk]
    simp
  · simp only [AFPSCharacter.CrouchingCallback, FMath.Lerp,
      FVector.add_mk, FVector.sub_mk, FVector.scale_mk]
    simp

/-- C7 at a concrete input: the example character (eye height 64, capsule half height 89,
crouched half height 40, so `d = 49`) begins play, asks to crouch and is ticked, is notified
of the crouch, and after a first callback, a Tick and a forward input the callback at
`v = 1/2` puts the camera at height `64 + 49/2`. -/
theorem CrouchingCallback_linear_witness :
    exampleBeforeCrouch.all (fun op => !op.isBeginPlay) = true
    ∧ exampleDuringCrouch.all (fun op => !op.isCrouchEvent) = true
    ∧ ((run ((run exampleCharacter.BeginPlay exampleBeforeCrouch).OnStartCrouch 0 0)
        exampleDuringCrouch).CrouchingCallback (1 / 2)).CameraRelativeLocation
      = ⟨0, 0, 177 / 2⟩ := by
  have h := (CrouchingCallback_linear exampleCharacter exampleBeforeCrouch exampleDuringCrouch
    0 0 (1 / 2) rfl rfl).2.1.2.2.2.1
  refine ⟨rfl, rfl, ?_⟩
  rw [h]
  simp [exampleCharacter, examplePre, exampleEngine, AFPSCharacter.AFPSCharacter]
  norm_num
